import Mathlib

/-!
Shallow embedding of the dataguard validation library
(`src/dataguard` with its older embedded copy `src/peh_validation_library`):
the check-expression model, the error-report handlers, the error collector
and the validation orchestrator, together with theorems settling the
specification claims about them.

Conventions used throughout:
* Python strings are Lean `String`s; the few Python string methods the code
  uses (`str.lower`, `str.capitalize`, `str.replace('_', ' ')`) are defined
  below over the character list, following Python's (ASCII) semantics.
* Python `None` and `[]` are merged into `[]` whenever the source only ever
  tests the value for truthiness (which holds for every optional list field
  of the check expressions).
* A raised Python exception is an `Except` error value carrying the data the
  handlers read from it (class name, `str(err)`, traceback).
-/

namespace DataGuard

/-- Embeds `dataguard.core.utils.enums.ErrorLevel`. -/
inductive ErrorLevel where
  | warning
  | error
  | critical
deriving DecidableEq, Repr, Inhabited

/-- Python `ErrorLevel.<member>.value`. -/
def ErrorLevel.value : ErrorLevel → String
  | .warning => "warning"
  | .error => "error"
  | .critical => "critical"

/-- Python `ErrorLevel.<member>.name` (the member identifier). -/
def ErrorLevel.pyName : ErrorLevel → String
  | .warning => "WARNING"
  | .error => "ERROR"
  | .critical => "CRITICAL"

/-- Inverse of `ErrorLevel.value`, i.e. pydantic's lax coercion of a string
into the `ErrorLevel` enum (by value): fails on any other string. -/
def ErrorLevel.ofValue? : String → Option ErrorLevel
  | "warning" => some .warning
  | "error" => some .error
  | "critical" => some .critical
  | _ => none

/-- Embeds `dataguard.core.utils.enums.CheckCases`. -/
inductive CheckCases where
  | condition
  | conjunction
  | disjunction
deriving DecidableEq, Repr, Inhabited

/-! ### Python string primitives used by `core/check/schemas.py` -/

/-- Python `str.lower()` (ASCII range, which is all the code relies on). -/
def pyLower (s : String) : String := ⟨s.data.map Char.toLower⟩

/-- Python `str.capitalize()`: first character uppercased, the remaining
characters lowercased (this differs from Lean's `String.capitalize`, which
leaves the tail unchanged). -/
def pyCapitalize (s : String) : String :=
  match s.data with
  | [] => ⟨[]⟩
  | c :: cs => ⟨c.toUpper :: cs.map Char.toLower⟩

/-- Python `s.replace('_', ' ')`: for single-character pattern and
replacement this is a character map. -/
def pyReplaceUnderscore (s : String) : String :=
  ⟨s.data.map fun c => if c = '_' then ' ' else c⟩

/-- A Python value as observed by the f-string rendering in
`get_check_message`: its `str()` and its `repr()` text. -/
structure PyValue where
  str : String
  repr : String
deriving DecidableEq, Repr, Inhabited

/-- A Python `str` as a `PyValue` (`repr` adds single quotes). -/
def PyValue.ofString (s : String) : PyValue := ⟨s, "'" ++ s ++ "'"⟩

/-- A Python `int` as a `PyValue` (`str` and `repr` agree). -/
def PyValue.ofInt (n : Int) : PyValue := ⟨toString n, toString n⟩

/-- Python `str(list)`: elements rendered with `repr`, joined by `", "`,
wrapped in brackets. -/
def pyListRepr (args : List PyValue) : String :=
  "[" ++ String.intercalate ", " (args.map (·.repr)) ++ "]"

/-! ### `dataguard/core/check/schemas.py` -/

/-- Embeds `SimpleCheckExpression` with a string `command` (the claims are about the
named-predicate form; a user-supplied callable only differs in how the title
is derived). The optional list fields keep the source's `None`/`[]`
truthiness: `[]` stands for both. -/
structure SimpleCheckExpression where
  command : String
  subject : List String := []
  arg_values : List PyValue := []
  arg_columns : List String := []
deriving DecidableEq, Repr, Inhabited

/-- Embeds `get_args_string` (module-level in `dataguard`): one argument is quoted
via `f'"{args[0]}"'`; otherwise the list object itself is returned and the
caller's f-string renders it with `str(list)`. -/
def get_args_string (args : List PyValue) : String :=
  match args with
  | [a] => "\"" ++ a.str ++ "\""
  | _ => pyListRepr args

/-- Embeds `SimpleCheckExpression.get_check_title` (string-command branch):
`self.command.replace('_', ' ').capitalize()`. -/
def SimpleCheckExpression.get_check_title (e : SimpleCheckExpression) : String :=
  pyCapitalize (pyReplaceUnderscore e.command)

/-- Embeds `SimpleCheckExpression.get_check_message`. -/
def SimpleCheckExpression.get_check_message (e : SimpleCheckExpression) : String :=
  let baseMsg :=
    if e.subject ≠ [] then
      "Column(s) " ++ get_args_string (e.subject.map PyValue.ofString) ++ " "
        ++ pyLower e.get_check_title
    else
      "The column under validation " ++ pyLower e.get_check_title
  if e.arg_values ≠ [] then
    baseMsg ++ " " ++ get_args_string e.arg_values
  else if e.arg_columns ≠ [] then
    baseMsg ++ " " ++ get_args_string (e.arg_columns.map PyValue.ofString)
  else
    baseMsg

/-- The recursive check-expression tree: a leaf `SimpleCheckExpression` or a
`CaseCheckExpression` combining sub-expressions (pydantic's
`SimpleCheckExpression | CaseCheckExpression` recursive union). -/
inductive CheckExpr where
  | simple (e : SimpleCheckExpression)
  | case (check_case : CheckCases) (expressions : List CheckExpr)

instance : Inhabited CheckExpr := ⟨.simple default⟩

mutual

/-- Pydantic validity of an expression tree: every `CaseCheckExpression`
node satisfies `Field(min_length=2, max_length=2)` on `expressions`. -/
def CheckExpr.pydValid : CheckExpr → Bool
  | .simple _ => true
  | .case _ exprs => exprs.length == 2 && pydValidList exprs

/-- Pydantic validity of a list of sub-expressions. -/
def pydValidList : List CheckExpr → Bool
  | [] => true
  | e :: es => e.pydValid && pydValidList es

end

/-- A successfully constructed `CaseCheckExpression`. -/
structure CaseCheckExpression where
  check_case : CheckCases
  expressions : List CheckExpr

/-- Pydantic construction of `CaseCheckExpression`: the `expressions` field
is declared `Field(min_length=2, max_length=2)`, so a list whose length is
not 2 is rejected with a `ValidationError`; nested `CaseCheckExpression`
entries are themselves validated recursively. -/
def CaseCheckExpression.model_validate (check_case : CheckCases)
    (expressions : List CheckExpr) : Except String CaseCheckExpression :=
  if expressions.length < 2 then
    .error "ValidationError: List should have at least 2 items"
  else if 2 < expressions.length then
    .error "ValidationError: List should have at most 2 items"
  else if pydValidList expressions then
    .ok ⟨check_case, expressions⟩
  else
    .error "ValidationError: invalid nested expression"

/-! ### `dataguard/error_report/error_schemas.py` -/

/-- Embeds `ExceptionSchema` (the `dataguard` one): `type`, `message`, `level`,
`traceback`. -/
structure ExceptionSchema where
  type : String
  message : String
  level : ErrorLevel
  traceback : String
deriving DecidableEq, Repr, Inhabited

/-- Embeds `ErrorSchema` (the `dataguard` one): adds `title` and `traceback`. -/
structure ErrorSchema where
  type : String
  message : String
  level : ErrorLevel
  title : String
  traceback : String
deriving DecidableEq, Repr, Inhabited

/-- Embeds `DFErrorSchema`: an `ErrorSchema` with the dataframe location fields. -/
structure DFErrorSchema where
  type : String
  message : String
  level : ErrorLevel
  title : String
  column_names : List String
  row_ids : List Nat
  idx_columns : List String
  traceback : Option String := none
deriving DecidableEq, Repr, Inhabited

/-- A record held by an `ErrorReportSchema.errors` list: either a plain
`ErrorSchema` (from `error_handler`) or a `DFErrorSchema` (from
`pandera_schema_errors_handler`). -/
inductive ReportRecord where
  | err (e : ErrorSchema)
  | dfErr (e : DFErrorSchema)
deriving DecidableEq, Repr, Inhabited

/-- Severity of the record, whichever shape it has. -/
def ReportRecord.level : ReportRecord → ErrorLevel
  | .err e => e.level
  | .dfErr e => e.level

/-- Embeds `ErrorReportSchema` as built by the handlers, without its `id` field:
the handlers fill `id` with a fresh `uuid4` string, but the aggregator
(spec §4.6) assigns the counter value at append time, so the id lives in
the aggregator state (see `ErrorCollector.add_error_report`). -/
structure ErrorReportSchema where
  name : String
  errors : List ReportRecord
  total_errors : Nat
deriving DecidableEq, Repr, Inhabited

/-! ### The error aggregator used by `dataguard/error_report/handlers.py`

`handlers.py` calls `ErrorCollector().add_error_report(...)` and
`ErrorCollector().add_unknown_exception(...)`; the `ErrorCollector`
version that defines those methods is not in the source tree (the
`error_collector.py` present under `src/` is the older `add_errors`
collector, embedded further below). The two append methods are therefore
modelled from the spec. -/

/-- The process-wide aggregator state: the ordered violation reports (each
paired with the id assigned at append time), the ordered exception records
and the running counter. -/
structure AggState where
  error_reports : List (Nat × ErrorReportSchema)
  exceptions : List ExceptionSchema
  counter : Nat
deriving DecidableEq, Repr, Inhabited

/-- The initial (and cleared) aggregator state. -/
def AggState.empty : AggState := ⟨[], [], 0⟩

/-- Modelled from the spec: `ErrorCollector.add_error_report` is missing
from `src/` (only its callers in `handlers.py` and the tests are present).
Spec §4.6 `append_violation_report`: "atomically assigns the next counter
value to the new report, appends it, and advances the counter by
`len(violations)`". -/
def ErrorCollector.add_error_report (st : AggState) (r : ErrorReportSchema) :
    AggState :=
  { st with
    error_reports := st.error_reports ++ [(st.counter, r)]
    counter := st.counter + r.errors.length }

/-- Modelled from the spec: `ErrorCollector.add_unknown_exception` is
missing from `src/` (only its caller in `handlers.py` and the tests are
present). Spec §4.6 `append_exception`: "appends without consuming a
counter slot". -/
def ErrorCollector.add_unknown_exception (st : AggState) (e : ExceptionSchema) :
    AggState :=
  { st with exceptions := st.exceptions ++ [e] }

/-! ### `dataguard/error_report/handlers.py` -/

/-- The data the handlers read from a raised Python exception object:
its class name (`type(err).__name__`), its `str()`, and the traceback text
`traceback.format_exc()` produces while it is being handled. -/
structure PyExc where
  cls : String
  message : String
  traceback : String := ""
  args0 : String := ""
deriving DecidableEq, Repr, Inhabited

/-- Embeds `exception_handler`: logs, re-raises when `lazy` is false, otherwise
records an `ExceptionSchema` via the aggregator and returns. -/
def exception_handler (err : PyExc) (lazy : Bool) (err_level : ErrorLevel)
    (st : AggState) : Except PyExc AggState :=
  if !lazy then
    .error err
  else
    .ok (ErrorCollector.add_unknown_exception st
      { type := err.cls
        message := err.message
        level := err_level
        traceback := err.traceback })

/-- Python truthiness choice `message if message else str(err)`:
`None` and the empty string both fall back. -/
def strOrElse (message : Option String) (d : String) : String :=
  match message with
  | some s => if s = "" then d else s
  | none => d

/-- Embeds `error_handler`: logs, re-raises when `lazy` is false, otherwise wraps
the error into a single-record `"Critical Error Report"` and appends it via
the aggregator. -/
def error_handler (err : PyExc) (err_level : ErrorLevel)
    (message : Option String := none) (lazy : Bool := true)
    (st : AggState) : Except PyExc AggState :=
  if !lazy then
    .error err
  else
    let err_schema : ErrorSchema :=
      { level := err_level
        message := strOrElse message err.message
        title := err.cls ++ ": " ++ err.message
        type := err.cls
        traceback := err.traceback }
    let err_report : ErrorReportSchema :=
      { name := "Critical Error Report"
        errors := [.err err_schema]
        total_errors := 1 }
    .ok (ErrorCollector.add_error_report st err_report)

/-- Data `parse_schema_error` reads from the schema object attached to a
pandera error: its name, its column keys (`[]` models an absent or empty
`columns` attribute, both falsy) and its `unique` attribute (`none` models
an absent attribute). -/
structure PaSchemaData where
  name : String
  columns : List String
  unique : Option (List String) := none
deriving DecidableEq, Repr, Inhabited

/-- Data `parse_schema_error` reads from one pandera `SchemaError`:
`reason_code`, `str(err)`, the check's `name` attribute (`none` models an
absent attribute; the empty string is likewise falsy), the check's title
text (a string, or the string a callable title returns), the schema object
and the failing row positions `create_row_idx` extracts from
`check_output`. -/
structure PaSchemaErrorData where
  reason_code : String
  strRepr : String
  check_name : Option String := none
  check_title : String
  schema : PaSchemaData
  row_ids : List Nat
deriving DecidableEq, Repr, Inhabited

/-- The `idx_columns` expression at the top of
`pandera_schema_errors_handler`: `getattr(err.schema, 'unique', []) if not
getattr(err.schema, 'unique', None) else []`. Every branch of that
expression yields an empty or falsy value (a truthy `unique` maps to `[]`,
a falsy one is passed through), so the result is the empty list in every
case we model. -/
def handlerIdxColumns (_ : Option (List String)) : List String := []

/-- Truthiness of the `getattr(check, 'name', None)` result. -/
def truthyOptStr : Option String → Bool
  | some s => s ≠ ""
  | none => false

/-- Embeds `parse_schema_error`: builds a `DFErrorSchema` from one
`SchemaError`. The severity is the check's `name` when that attribute is
truthy (this library names its checks after their error level), otherwise
the `error_level` argument; pydantic rejects the record (a
`ValidationError`) when the resulting string is not an `ErrorLevel` value. -/
def parse_schema_error (e : PaSchemaErrorData) (idx_columns : List String)
    (error_level : ErrorLevel := .error) : Except PyExc DFErrorSchema :=
  let levelStr :=
    if truthyOptStr e.check_name then e.check_name.getD "" else error_level.value
  match ErrorLevel.ofValue? levelStr with
  | none => .error ⟨"ValidationError", "level: " ++ levelStr, "", ""⟩
  | some lvl =>
    .ok
      { type := e.reason_code
        message := e.strRepr
        level := lvl
        title := e.check_title
        column_names :=
          if e.schema.columns ≠ [] then e.schema.columns else [e.schema.name]
        row_ids := e.row_ids
        idx_columns := idx_columns }

/-- The `for schema_error in err.schema_errors` loop of
`pandera_schema_errors_handler`: each error is parsed and appended, and the
loop breaks right after appending a record whose severity is critical. -/
def processSchemaErrors (idx_columns : List String) :
    List PaSchemaErrorData → Except PyExc (List DFErrorSchema)
  | [] => .ok []
  | e :: rest =>
    match parse_schema_error e idx_columns with
    | .error exc => .error exc
    | .ok df =>
      if df.level = .critical then
        .ok [df]
      else
        match processSchemaErrors idx_columns rest with
        | .error exc => .error exc
        | .ok dfs => .ok (df :: dfs)

/-- The data `pandera_schema_errors_handler` reads from its argument, a
pandera `SchemaErrors` (batched mode) or `SchemaError` (eager mode):
`schema_errors` holds the batch (`[]` models an absent or empty attribute,
both falsy), `selfData` the fields read when the error itself is parsed as
a single `SchemaError`, and `asExc` the exception data seen when it is
re-raised. -/
structure PaErrorsInput where
  schema : PaSchemaData
  schema_errors : List PaSchemaErrorData := []
  selfData : PaSchemaErrorData
  asExc : PyExc
deriving DecidableEq, Repr, Inhabited

/-- The body of `pandera_schema_errors_handler` that computes the `errors`
list: the batched loop when `schema_errors` is truthy, otherwise a single
parse of the error itself at critical level. -/
def translateHandlerInput (err : PaErrorsInput) : Except PyExc (List DFErrorSchema) :=
  let idx := handlerIdxColumns err.schema.unique
  if err.schema_errors ≠ [] then
    processSchemaErrors idx err.schema_errors
  else
    match parse_schema_error err.selfData idx ErrorLevel.critical with
    | .error exc => .error exc
    | .ok df => .ok [df]

/-- Embeds `pandera_schema_errors_handler`: re-raises when `lazy` is false,
otherwise translates the violations (see `translateHandlerInput`) and
appends one report named after the schema via the aggregator. -/
def pandera_schema_errors_handler (err : PaErrorsInput) (lazy : Bool := false)
    (st : AggState) : Except PyExc AggState :=
  if !lazy then
    .error err.asExc
  else
    match translateHandlerInput err with
    | .error exc => .error exc
    | .ok errors =>
      .ok (ErrorCollector.add_error_report st
        { name := err.schema.name
          errors := errors.map .dfErr
          total_errors := errors.length })

/-! ### `dataguard/error_report/error_collector.py`

The `ErrorCollector.add_errors` collector (the `src/` file; it is the
older, `peh_validation_library`-era pipeline, so its records follow the
`peh_validation_library/error_report/error_schemas.py` shapes: a plain
string severity and an `int` report id). -/

/-- Embeds the `peh` `ExceptionSchema` (`error_type`, `error_message`,
`error_level`, `error_traceback`, optional context/source), the shape whose
truthy `error_traceback` routes `add_errors` to the exception branch. -/
structure PehExceptionSchema where
  error_type : String
  error_message : String
  error_level : ErrorLevel
  error_traceback : String
  error_context : Option String := none
  error_source : Option String := none
deriving DecidableEq, Repr, Inhabited

/-- Result of `from_schema_error`: the column-name keys when the schema has
a truthy `columns` attribute, otherwise the schema's `name` attribute
(possibly absent). -/
inductive ColumnNames where
  | many (names : List String)
  | one (name : Option String)
deriving DecidableEq, Repr, Inhabited

/-- Embeds the `peh` `ErrorSchema` built by `add_errors`
(`column_names`, `row_ids`, `idx_columns`, a plain-string `level`,
`message`, `title`). -/
structure PehErrorSchema where
  column_names : ColumnNames
  row_ids : List Nat
  idx_columns : List String
  level : String
  message : String
  title : String
deriving DecidableEq, Repr, Inhabited

/-- Embeds the `peh` `ErrorReportSchema` (`name`, `errors`, `total_errors`,
integer `id`). -/
structure PehErrorReport where
  name : String
  errors : List PehErrorSchema
  total_errors : Nat
  id : Nat
deriving DecidableEq, Repr, Inhabited

/-- The check attached to a `SchemaError` as `add_errors` reads it: either a
plain string (`isinstance(err.check, str)`) or a check object exposing
`name`, `error` and `title`. -/
inductive CheckField where
  | str (s : String)
  | obj (name : String) (error : String) (title : String)
deriving DecidableEq, Repr, Inhabited

/-- Data `add_errors` reads from one entry of `error.schema_errors`:
the `from_schema_error` result (column names and failing row positions),
the attached check, `str(err)` and `str(err.reason_code)`. -/
structure CollectorSchemaErr where
  column_names : ColumnNames
  row_ids : List Nat
  check : CheckField
  strRepr : String
  reason_code : String
deriving DecidableEq, Repr, Inhabited

/-- The one-error translation inside the `for err in error.schema_errors`
loop of `add_errors`: a critical record when there are no failing rows,
otherwise the check's own metadata (or the bare string check). -/
def translateCollectorErr (idx_columns : List String)
    (err : CollectorSchemaErr) : PehErrorSchema :=
  if err.row_ids.length = 0 then
    { column_names := err.column_names
      row_ids := err.row_ids
      idx_columns := idx_columns
      level := "critical"
      message := err.strRepr
      title := err.reason_code }
  else
    match err.check with
    | .obj name error title =>
      { column_names := err.column_names
        row_ids := err.row_ids
        idx_columns := idx_columns
        level := name
        message := error
        title := title }
    | .str s =>
      { column_names := err.column_names
        row_ids := err.row_ids
        idx_columns := idx_columns
        level := "error"
        message := s
        title := s }

/-- The schema object attached to the error passed to `add_errors`, with
the `hasattr` guards of the single-error branch: `unique`, `level` and
`message` may be absent (`none`), `title` falls back to `name` when falsy
(modelled by the empty string). -/
structure CollectorSchemaData where
  name : String
  unique : Option (List String) := none
  level : Option String := none
  message : Option String := none
  title : String := ""
deriving DecidableEq, Repr, Inhabited

/-- Data `add_errors` reads from a non-exception error argument (a pandera
`SchemaErrors` or `SchemaError`): the batch under `schema_errors` (`[]`
models an absent or empty attribute, both falsy, in which case the error is
translated as a single `SchemaError` from `selfData`) and the attached
schema object. -/
structure CollectorPaError where
  schema : CollectorSchemaData
  schema_errors : List CollectorSchemaErr := []
  selfData : CollectorSchemaErr
deriving DecidableEq, Repr, Inhabited

/-- The `errors` list `add_errors` accumulates for a non-exception error:
one record per batch entry, or a single record built from the schema
attributes with their `hasattr`/truthiness fallbacks. -/
def collectErrors (e : CollectorPaError) : List PehErrorSchema :=
  if e.schema_errors ≠ [] then
    e.schema_errors.map (translateCollectorErr (e.schema.unique.getD []))
  else
    [{ column_names := e.selfData.column_names
       row_ids := e.selfData.row_ids
       idx_columns := e.schema.unique.getD []
       level := e.schema.level.getD ErrorLevel.critical.pyName
       message := e.schema.message.getD e.selfData.strRepr
       title := if e.schema.title ≠ "" then e.schema.title else e.schema.name }]

/-- The argument of `add_errors`: an exception-shaped record (truthy
`error_traceback`) or a pandera error. -/
inductive AddErrorsInput where
  | exc (e : PehExceptionSchema)
  | pa (e : CollectorPaError)
deriving DecidableEq, Repr, Inhabited

/-- State of the single `ErrorCollector` instance: the private `__errors`
and `__exceptions` lists and the `COUNTER`. -/
structure ErrorCollectorState where
  errors : List PehErrorReport
  exceptions : List PehExceptionSchema
  counter : Nat
deriving DecidableEq, Repr, Inhabited

/-- The collector state after `__init__` (and after `clear_errors`). -/
def ErrorCollectorState.empty : ErrorCollectorState := ⟨[], [], 0⟩

/-- The non-exception path of `add_errors`: translate the error into
records, and when at least one record came out append a report carrying the
current `COUNTER` as its id and advance the counter by the record count. -/
def add_errors_pa (st : ErrorCollectorState) (e : CollectorPaError) :
    ErrorCollectorState :=
  let errors := collectErrors e
  if errors.length > 0 then
    { st with
      errors := st.errors ++
        [{ name := e.schema.name
           errors := errors
           total_errors := errors.length
           id := st.counter }]
      counter := st.counter + errors.length }
  else st

/-- Embeds `ErrorCollector.add_errors`. An argument with a truthy
`error_traceback` is appended to the exception list and the method returns;
an exception-shaped argument whose traceback is falsy would fall through to
the pandera branches and crash on the missing attributes (an
`AttributeError`), modelled as the error case. -/
def ErrorCollector.add_errors (st : ErrorCollectorState) (input : AddErrorsInput) :
    Except PyExc ErrorCollectorState :=
  match input with
  | .exc e =>
    if e.error_traceback ≠ "" then
      .ok { st with exceptions := st.exceptions ++ [e] }
    else
      .error ⟨"AttributeError", "schema", "", ""⟩
  | .pa e => .ok (add_errors_pa st e)

/-- A sequence of `add_errors` calls on violation batches. -/
def runBatches (st : ErrorCollectorState) (bs : List CollectorPaError) :
    ErrorCollectorState :=
  bs.foldl add_errors_pa st

/-- The number of violation records one batch contributes. -/
def kOf (e : CollectorPaError) : Nat := (collectErrors e).length

/-! ### `dataguard/validator/validator.py` -/

/-- A configuration mapping, reduced to the set of top-level keys present
(the payload under each key is irrelevant to the claims settled here). -/
structure ConfigMapping where
  keys : List String
deriving DecidableEq, Repr, Inhabited

/-- Modelled from the spec: `dataguard.config.config_reader.get_df_schema`
is not under `src/` (only its caller `Validator.config_from_mapping`, the
tests, and the older `peh_validation_library` variant are). Spec §4.4
requires the required top-level keys `name` and `columns` and that "missing
required keys fail as a 'missing key' error"; the caller's `except KeyError`
branch and the validator tests pin that to a bare `KeyError` naming the
missing key (`DFSchema(name=config['name'], columns=parse_columns(
config['columns']), ...)` reads `name` first). Parsing of a config that has
both keys is represented by an opaque success token. -/
def get_df_schema (config : ConfigMapping) : Except PyExc String :=
  if "name" ∉ config.keys then
    .error ⟨"KeyError", "'name'", "", "name"⟩
  else if "columns" ∉ config.keys then
    .error ⟨"KeyError", "'columns'", "", "columns"⟩
  else
    .ok "DFSchema"

/-- Embeds `Validator.config_from_mapping`: builds the schema, and on
failure dispatches on the exception class exactly as the source's `except`
chain does; the pair returned is the validator's `df_schema` attribute
(`none` when schema creation failed, so the attribute was never set) and
the aggregator state. -/
def Validator.config_from_mapping (config : ConfigMapping)
    (collect_exceptions : Bool := true) (st : AggState) :
    Except PyExc (Option String × AggState) :=
  match get_df_schema config with
  | .ok s => .ok (some s, st)
  | .error err =>
    if err.cls = "KeyError" then
      (error_handler err .critical
        (some ("Missing the following key in config input: " ++ err.args0))
        collect_exceptions st).map (fun st' => (none, st'))
    else if err.cls = "AttributeError" ∨ err.cls = "TypeError" then
      (error_handler err .critical
        (some ("Invalid config type: " ++ err.args0))
        collect_exceptions st).map (fun st' => (none, st'))
    else if err.cls = "ValidationError" then
      (error_handler err .critical
        (some ("Invalid config type: " ++ err.args0))
        collect_exceptions st).map (fun st' => (none, st'))
    else
      (exception_handler err collect_exceptions .critical st).map
        (fun st' => (none, st'))

/-- Outcome of one `dataframe.pipe(df_schema.validate, ...)` attempt
(together with the type-cast that precedes the first attempt inside the
same `try`): success, a raised `PolarsError`, raised pandera schema
errors, a raised `NotImplementedError`, or any other exception. -/
inductive ValidationOutcome where
  | ok
  | polarsError (e : PyExc)
  | schemaErrors (e : PaErrorsInput)
  | notImplemented (e : PyExc)
  | otherError (e : PyExc)
deriving DecidableEq, Repr, Inhabited

/-- The inner `try` of `Validator.validate` around the batched (lazy)
attempt, including the eager retry on `NotImplementedError`; an error value
is an exception escaping into the outer `try` (either a handler re-raise
when `collect_exceptions` is false, or an exception the `except` clauses do
not catch). -/
def dispatchValidation (lazyOut eagerOut : ValidationOutcome)
    (collect_exceptions : Bool) (st : AggState) : Except PyExc AggState :=
  match lazyOut with
  | .ok => .ok st
  | .polarsError e => error_handler e .critical (some e.message) collect_exceptions st
  | .schemaErrors e => pandera_schema_errors_handler e collect_exceptions st
  | .notImplemented _ =>
    match eagerOut with
    | .ok => .ok st
    | .polarsError e => error_handler e .critical (some e.message) collect_exceptions st
    | .schemaErrors e => pandera_schema_errors_handler e collect_exceptions st
    | .notImplemented e => .error e
    | .otherError e => .error e
  | .otherError e => .error e

/-- Embeds `Validator.validate` for a dataframe input (the
mapping-to-dataframe conversion step is outside the claims settled here):
return immediately when no `df_schema` is held or the dataframe has no
truthy `shape`; otherwise run the batched attempt with the eager retry
(`dispatchValidation`), and route any exception that escapes the inner
`try` through the outer `except Exception` into `exception_handler`.
`lazyOut` is the outcome of the batched (`lazy=lazy_validation`) attempt,
`eagerOut` of the eager retry. -/
def Validator.validate (df_schema : Option String) (dataframe_ok : Bool)
    (lazyOut eagerOut : ValidationOutcome) (collect_exceptions : Bool)
    (st : AggState) : Except PyExc AggState :=
  match df_schema with
  | none => .ok st
  | some _ =>
    if !dataframe_ok then
      .ok st
    else
      match dispatchValidation lazyOut eagerOut collect_exceptions st with
      | .ok st' => .ok st'
      | .error e => exception_handler e collect_exceptions .critical st

/-! ### Specification-side definitions used by the theorems -/

/-- The reports a sequence of violation batches appends when the counter
starts at `c`: the i-th report carries id `c + Σ_{j<i} k_j`. -/
def reportsFrom (c : Nat) : List CollectorPaError → List PehErrorReport
  | [] => []
  | b :: bs =>
    { name := b.schema.name
      errors := collectErrors b
      total_errors := kOf b
      id := c } :: reportsFrom (c + kOf b) bs

/-- Specification-side full translation of a batch: what
`parse_schema_error` would produce for every violation of the batch if the
loop never broke. Compared with `processSchemaErrors` (the source loop,
which breaks after the first critical record). -/
def parseAll (idx : List String) :
    List PaSchemaErrorData → Except PyExc (List DFErrorSchema)
  | [] => .ok []
  | e :: rest =>
    match parse_schema_error e idx with
    | .error exc => .error exc
    | .ok df =>
      match parseAll idx rest with
      | .error exc => .error exc
      | .ok dfs => .ok (df :: dfs)

/-- A concrete schema datum for witness scenarios. -/
def eagerSchemaData : PaSchemaData := ⟨"scm", ["age"], none⟩

/-- A concrete single `SchemaError` datum for witness scenarios. -/
def eagerSelfErr : PaSchemaErrorData :=
  ⟨"SERIES_CONTAINS_NULLS", "null values", none, "Not nullable",
    eagerSchemaData, [2]⟩

/-- A concrete eager-mode `SchemaError` input for witness scenarios. -/
def eagerInput : PaErrorsInput :=
  ⟨eagerSchemaData, [], eagerSelfErr, ⟨"SchemaError", "null values", "", ""⟩⟩

/-- The record the eager-mode parse of `eagerInput` produces. -/
def eagerDF : DFErrorSchema :=
  ⟨"SERIES_CONTAINS_NULLS", "null values", .critical, "Not nullable",
    ["age"], [2], [], none⟩

/-- A concrete non-critical batch violation for witness scenarios. -/
def batchErr1 : PaSchemaErrorData :=
  ⟨"DATAFRAME_CHECK", "err1", some "error", "Is in", eagerSchemaData, [0, 3]⟩

/-- A concrete critical batch violation for witness scenarios. -/
def batchErr2 : PaSchemaErrorData :=
  ⟨"SCHEMA_COMPONENT_CHECK", "err2", some "critical", "Critical check",
    eagerSchemaData, [1]⟩

/-- A concrete batch violation standing after the critical one. -/
def batchErr3 : PaSchemaErrorData :=
  ⟨"DATAFRAME_CHECK", "err3", some "error", "Other", eagerSchemaData, [2]⟩

/-- A concrete batched `SchemaErrors` input whose second violation is
critical. -/
def batchInput : PaErrorsInput :=
  ⟨eagerSchemaData, [batchErr1, batchErr2, batchErr3], eagerSelfErr,
    ⟨"SchemaErrors", "3 schema errors", "", ""⟩⟩

/-- The full (break-free) translation of `batchInput`. -/
def batchParsed : List DFErrorSchema :=
  [⟨"DATAFRAME_CHECK", "err1", .error, "Is in", ["age"], [0, 3], [], none⟩,
   ⟨"SCHEMA_COMPONENT_CHECK", "err2", .critical, "Critical check", ["age"],
     [1], [], none⟩,
   ⟨"DATAFRAME_CHECK", "err3", .error, "Other", ["age"], [2], [], none⟩]

/-- A concrete collector violation with failing rows, for witness
scenarios. -/
def colErr1 : CollectorSchemaErr :=
  ⟨.many ["age"], [0, 2], .obj "error" "msg1" "T1", "strrepr1", "rc1"⟩

/-- A concrete collector violation with no failing rows (translated as a
critical record), for witness scenarios. -/
def colErr2 : CollectorSchemaErr :=
  ⟨.many ["age"], [], .obj "error" "msg2" "T2", "strrepr2", "rc2"⟩

/-- A concrete two-violation batch for the collector. -/
def colBatch1 : CollectorPaError :=
  ⟨⟨"scm", some ["id"], none, none, ""⟩, [colErr1, colErr2], colErr1⟩

/-- A concrete single-violation batch for the collector. -/
def colBatch2 : CollectorPaError :=
  ⟨⟨"scm2", none, none, none, "Title"⟩, [], colErr2⟩

/-! ## Theorems

Claim-level theorems, each preceded by supporting lemmas where needed. -/

/-- Evaluating `Char.ofNat` below the surrogate range. -/
theorem toNat_char_ofNat (n : Nat) (h : n < 55296) : (Char.ofNat n).toNat = n := by
  rw [Char.ofNat, dif_pos (Or.inl h)]
  rfl

/-- Lowercasing after uppercasing is plain lowercasing, per character. -/
theorem char_toLower_toUpper (c : Char) : c.toUpper.toLower = c.toLower := by
  unfold Char.toUpper Char.toLower
  by_cases h : c.toNat ≥ 97 ∧ c.toNat ≤ 122
  · rw [if_pos h, toNat_char_ofNat _ (by omega),
      if_pos (by omega : c.toNat - 32 ≥ 65 ∧ c.toNat - 32 ≤ 90),
      if_neg (by omega : ¬(c.toNat ≥ 65 ∧ c.toNat ≤ 90)),
      (by omega : c.toNat - 32 + 32 = c.toNat), Char.ofNat_toNat]
  · rw [if_neg h]

/-- Lowercasing is idempotent, per character. -/
theorem char_toLower_toLower (c : Char) : c.toLower.toLower = c.toLower := by
  conv_lhs => rw [Char.toLower, Char.toLower]
  by_cases h : c.toNat ≥ 65 ∧ c.toNat ≤ 90
  · rw [if_pos h, toNat_char_ofNat _ (by omega),
      if_neg (by omega : ¬(c.toNat + 32 ≥ 65 ∧ c.toNat + 32 ≤ 90)),
      Char.toLower, if_pos h]
  · rw [if_neg h, if_neg h, Char.toLower, if_neg h]

/-- Python `s.capitalize().lower() == s.lower()`. -/
theorem pyLower_pyCapitalize (s : String) : pyLower (pyCapitalize s) = pyLower s := by
  rcases s with ⟨l⟩
  cases l with
  | nil => rfl
  | cons c cs =>
    show String.mk _ = String.mk _
    simp [pyCapitalize, pyLower, char_toLower_toUpper, char_toLower_toLower,
      Function.comp_def]

/-- String concatenation is associative (unfolded to list append). -/
theorem str_append_assoc (a b c : String) : a ++ b ++ c = a ++ (b ++ c) := by
  rcases a with ⟨a⟩; rcases b with ⟨b⟩; rcases c with ⟨c⟩
  show String.mk _ = String.mk _
  simp [String.data_append]

/-- Sanity check: the embedding reproduces the repository's own test
expectations for `get_check_message` (tests_core/tests_check). -/
theorem get_check_message_matches_tests :
    SimpleCheckExpression.get_check_message
        ⟨"test_command", ["column1", "column2"], [], []⟩ =
      "Column(s) ['column1', 'column2'] test command" ∧
    SimpleCheckExpression.get_check_message
        ⟨"test_command", [], [PyValue.ofInt 1, PyValue.ofInt 2, PyValue.ofInt 3], []⟩ =
      "The column under validation test command [1, 2, 3]" ∧
    SimpleCheckExpression.get_check_message
        ⟨"test_command", [], [], ["col1", "col2"]⟩ =
      "The column under validation test command ['col1', 'col2']" ∧
    SimpleCheckExpression.get_check_message ⟨"test_command", ["column1"], [], []⟩ =
      "Column(s) \"column1\" test command" := by
  refine ⟨?_, ?_, ?_, ?_⟩ <;> decide

/-- C7 (counterexample): a Simple expression whose predicate name is the
string `"is_in"` and whose subject is the one-element list `["c"]`, but
which also carries an argument value, does not produce the claimed string:
the argument text is appended after it. -/
theorem simple_message_c7_counterexample :
    SimpleCheckExpression.get_check_message ⟨"is_in", ["c"], [PyValue.ofInt 1], []⟩ ≠
      "Column(s) \"c\" is in" := by
  decide

/-- C7 (amended): for every Simple expression with a string predicate name
`p`, subject `[c]`, and no argument values or argument columns,
`get_check_message` returns exactly `Column(s) "c" ` followed by `p` with
underscores replaced by spaces, lowercased. -/
theorem simple_message_round_trip (p c : String) :
    SimpleCheckExpression.get_check_message ⟨p, [c], [], []⟩ =
      "Column(s) " ++ "\"" ++ c ++ "\"" ++ " " ++ pyLower (pyReplaceUnderscore p) := by
  simp only [SimpleCheckExpression.get_check_message,
    SimpleCheckExpression.get_check_title, get_args_string, List.map,
    PyValue.ofString, pyLower_pyCapitalize]
  simp only [str_append_assoc]
  rw [← str_append_assoc]
  rfl

/-- C10: when `arg_values` is non-empty, `get_check_message` appends
exactly the `arg_values` argument text, and the message does not depend on
`arg_columns` at all (so the `arg_columns` text can only appear when
`arg_values` is absent or empty). -/
theorem arg_values_precedence (e : SimpleCheckExpression) (ac' : List String)
    (hav : e.arg_values ≠ []) :
    (e.get_check_message =
      (if e.subject ≠ [] then
        "Column(s) " ++ get_args_string (e.subject.map PyValue.ofString) ++ " "
          ++ pyLower e.get_check_title
      else
        "The column under validation " ++ pyLower e.get_check_title)
        ++ " " ++ get_args_string e.arg_values) ∧
    e.get_check_message =
      SimpleCheckExpression.get_check_message
        ⟨e.command, e.subject, e.arg_values, ac'⟩ := by
  obtain ⟨cmd, subj, av, ac⟩ := e
  constructor <;>
    simp [SimpleCheckExpression.get_check_message,
      SimpleCheckExpression.get_check_title, hav]

/-- C10 (witness): a concrete expression carrying both argument kinds has
the same message whatever its `arg_columns` are. -/
theorem arg_values_precedence_witness :
    SimpleCheckExpression.get_check_message ⟨"is_in", ["c"], [PyValue.ofInt 1], ["d"]⟩ =
      SimpleCheckExpression.get_check_message
        ⟨"is_in", ["c"], [PyValue.ofInt 1], ["e"]⟩ :=
  (arg_values_precedence ⟨"is_in", ["c"], [PyValue.ofInt 1], ["d"]⟩ ["e"]
    (by decide)).2

/-- C6: constructing a `CaseCheckExpression` with a child list whose length
is not exactly two fails with a `ValidationError` for every connective, and
a successful construction forces exactly two children. -/
theorem composite_arity (cc : CheckCases) (exprs : List CheckExpr) :
    (exprs.length ≠ 2 →
      ∃ msg, CaseCheckExpression.model_validate cc exprs = .error msg) ∧
    (∀ parsed, CaseCheckExpression.model_validate cc exprs = .ok parsed →
      exprs.length = 2) := by
  constructor
  · intro h
    unfold CaseCheckExpression.model_validate
    rcases Nat.lt_or_ge exprs.length 2 with hlt | hge
    · exact ⟨_, by rw [if_pos hlt]⟩
    · exact ⟨_, by rw [if_neg (by omega), if_pos (by omega)]⟩
  · intro parsed hok
    by_contra h
    unfold CaseCheckExpression.model_validate at hok
    rcases Nat.lt_or_ge exprs.length 2 with hlt | hge
    · rw [if_pos hlt] at hok
      exact Except.noConfusion hok
    · rw [if_neg (by omega), if_pos (by omega)] at hok
      exact Except.noConfusion hok

/-- C6 (witness): the empty child list is rejected for the `condition`
connective. -/
theorem composite_arity_witness :
    (([] : List CheckExpr).length ≠ 2) ∧
    ∃ msg, CaseCheckExpression.model_validate .condition [] = .error msg :=
  ⟨by decide, (composite_arity .condition []).1 (by decide)⟩

/-- C4: with the `lazy`/`collect_exceptions` flag false each handler
re-raises the error and leaves the aggregator untouched (the error value
carries the unchanged state away); with the flag true the error is recorded
and the handler returns normally: `exception_handler` appends exactly one
exception record, `error_handler` appends exactly one single-record report
and advances the counter by one. -/
theorem lazy_flag_gates_recording (err : PyExc) (pe : PaErrorsInput)
    (lvl : ErrorLevel) (msg : Option String) (st : AggState) :
    exception_handler err false lvl st = .error err ∧
    error_handler err lvl msg false st = .error err ∧
    pandera_schema_errors_handler pe false st = .error pe.asExc ∧
    exception_handler err true lvl st =
      .ok { st with
        exceptions := st.exceptions ++ [⟨err.cls, err.message, lvl, err.traceback⟩] } ∧
    error_handler err lvl msg true st =
      .ok { st with
        error_reports := st.error_reports ++
          [(st.counter,
            { name := "Critical Error Report"
              errors := [.err ⟨err.cls, strOrElse msg err.message, lvl,
                err.cls ++ ": " ++ err.message, err.traceback⟩]
              total_errors := 1 })]
        counter := st.counter + 1 } := by
  refine ⟨rfl, rfl, rfl, rfl, ?_⟩
  simp [error_handler, ErrorCollector.add_error_report]

/-- C9: `validate` on a Validator holding no usable schema (its `df_schema`
attribute was never set) returns immediately: for every input and every
flag value the aggregator state is returned unchanged — no violation report
and no exception record is appended. -/
theorem schemaless_validate_noop (dataframe_ok : Bool)
    (lazyOut eagerOut : ValidationOutcome) (collect_exceptions : Bool)
    (st : AggState) :
    Validator.validate none dataframe_ok lazyOut eagerOut collect_exceptions st =
      .ok st :=
  rfl

/-- C8: `add_errors` on an exception-shaped record (truthy
`error_traceback`) appends exactly that record to the exception sequence
and leaves the violation-report sequence and the running counter unchanged. -/
theorem append_exception_frame (st : ErrorCollectorState)
    (e : PehExceptionSchema) (h : e.error_traceback ≠ "") :
    ErrorCollector.add_errors st (.exc e) =
      .ok ⟨st.errors, st.exceptions ++ [e], st.counter⟩ := by
  simp [ErrorCollector.add_errors, h]

/-- C8 (witness): a concrete exception record appended to the empty
collector. -/
theorem append_exception_frame_witness :
    ErrorCollector.add_errors ErrorCollectorState.empty
        (.exc ⟨"ValueError", "boom", .critical, "tb", none, none⟩) =
      .ok ⟨[], [⟨"ValueError", "boom", .critical, "tb", none, none⟩], 0⟩ :=
  append_exception_frame ErrorCollectorState.empty
    ⟨"ValueError", "boom", .critical, "tb", none, none⟩ (by decide)

/-- C2: when the batched (lazy) validation attempt signals
`NotImplementedError`, `validate` retries in eager mode against the same
schema and data, and the final appended report contains exactly the
violations the eager run produced — the aborted batched attempt contributes
no record, no exception is recorded, and the counter advances only by the
eager record count. -/
theorem lazy_to_eager_fallback (n : String) (e0 : PyExc) (b : PaErrorsInput)
    (st : AggState) (errs : List DFErrorSchema)
    (h : translateHandlerInput b = .ok errs) :
    Validator.validate (some n) true (.notImplemented e0) (.schemaErrors b)
        true st =
      .ok { st with
        error_reports := st.error_reports ++
          [(st.counter,
            { name := b.schema.name
              errors := errs.map .dfErr
              total_errors := errs.length })]
        counter := st.counter + errs.length } := by
  simp [Validator.validate, dispatchValidation, pandera_schema_errors_handler, h,
    ErrorCollector.add_error_report]

/-- C2 (witness): a concrete eager-mode violation, recorded after the
batched attempt signalled `NotImplementedError`, yields exactly the one
eager record. -/
theorem lazy_to_eager_fallback_witness :
    translateHandlerInput eagerInput = .ok [eagerDF] ∧
    Validator.validate (some "scm") true
        (.notImplemented ⟨"NotImplementedError", "", "", ""⟩)
        (.schemaErrors eagerInput) true AggState.empty =
      .ok { AggState.empty with
        error_reports := AggState.empty.error_reports ++
          [(AggState.empty.counter,
            { name := eagerInput.schema.name
              errors := [eagerDF].map .dfErr
              total_errors := [eagerDF].length })]
        counter := AggState.empty.counter + [eagerDF].length } :=
  ⟨rfl,
    lazy_to_eager_fallback "scm" ⟨"NotImplementedError", "", "", ""⟩ eagerInput
      AggState.empty [eagerDF] rfl⟩

/-- C5: building a Validator from a configuration mapping that lacks the
required `columns` key appends, with exception collection on, exactly one
error record, of kind `KeyError` (a missing-key error) and critical
severity, packed in a single fresh report; the exception sequence is
untouched and the returned Validator holds no usable schema (`none`). -/
theorem missing_columns_key (config : ConfigMapping) (st : AggState)
    (h : "columns" ∉ config.keys) :
    ∃ rec : ErrorSchema,
      rec.type = "KeyError" ∧ rec.level = .critical ∧
      Validator.config_from_mapping config true st =
        .ok (none, { st with
          error_reports := st.error_reports ++
            [(st.counter,
              { name := "Critical Error Report"
                errors := [.err rec]
                total_errors := 1 })]
          counter := st.counter + 1 }) := by
  by_cases hn : "name" ∈ config.keys
  · refine ⟨⟨"KeyError", "Missing the following key in config input: columns",
      .critical, "KeyError: 'columns'", ""⟩, rfl, rfl, ?_⟩
    unfold Validator.config_from_mapping get_df_schema
    rw [if_neg (by simp [hn]), if_pos h]
    rfl
  · refine ⟨⟨"KeyError", "Missing the following key in config input: name",
      .critical, "KeyError: 'name'", ""⟩, rfl, rfl, ?_⟩
    unfold Validator.config_from_mapping get_df_schema
    rw [if_pos hn]
    rfl

/-- C5 (witness): the concrete config `{'name': ...}` with no `columns`
key. -/
theorem missing_columns_key_witness :
    ("columns" ∉ (ConfigMapping.mk ["name"]).keys) ∧
    ∃ rec : ErrorSchema,
      rec.type = "KeyError" ∧ rec.level = .critical ∧
      Validator.config_from_mapping ⟨["name"]⟩ true AggState.empty =
        .ok (none, { AggState.empty with
          error_reports := AggState.empty.error_reports ++
            [(AggState.empty.counter,
              { name := "Critical Error Report"
                errors := [.err rec]
                total_errors := 1 })]
          counter := AggState.empty.counter + 1 }) :=
  ⟨by decide, missing_columns_key ⟨["name"]⟩ AggState.empty (by decide)⟩

/-- The translation loop agrees with the break-free translation up to and
including the first critical record, and drops everything after it. -/
theorem processSchemaErrors_critical_prefix (idx : List String)
    (l : List PaSchemaErrorData) :
    ∀ parsed : List DFErrorSchema,
      parseAll idx l = .ok parsed →
      (∃ df ∈ parsed, df.level = .critical) →
      processSchemaErrors idx l =
        .ok (parsed.take (parsed.findIdx (fun df => df.level == .critical) + 1)) := by
  induction l with
  | nil =>
    intro parsed hp hc
    simp only [parseAll, Except.ok.injEq] at hp
    subst hp
    simp at hc
  | cons e rest ih =>
    intro parsed hp hc
    cases hpe : parse_schema_error e idx with
    | error exc =>
      simp only [parseAll, hpe] at hp
      exact absurd hp (by simp)
    | ok df =>
      cases hpr : parseAll idx rest with
      | error exc =>
        simp only [parseAll, hpe, hpr] at hp
        exact absurd hp (by simp)
      | ok rest' =>
        simp only [parseAll, hpe, hpr, Except.ok.injEq] at hp
        subst hp
        by_cases hcrit : df.level = .critical
        · simp only [processSchemaErrors, hpe, if_pos hcrit]
          rw [List.findIdx_cons]
          simp [hcrit]
        · have hc' : ∃ x ∈ rest', x.level = .critical := by
            rcases hc with ⟨x, hx, hxc⟩
            rcases List.mem_cons.mp hx with rfl | hx'
            · exact absurd hxc hcrit
            · exact ⟨x, hx', hxc⟩
          simp only [processSchemaErrors, hpe, if_neg hcrit, ih rest' hpr hc']
          rw [List.findIdx_cons]
          have hb : (df.level == ErrorLevel.critical) = false := by
            simp [hcrit]
          simp [hb]

/-- C3: when a batch of structured violations contains a critical one, the
handler's translation stops right after the first critical record: the
appended report consists of exactly the translated records up to and
including that one, and no record for any later violation. `parsed` is the
break-free translation of the whole batch. -/
theorem critical_short_circuit (b : PaErrorsInput) (st : AggState)
    (parsed : List DFErrorSchema)
    (hne : b.schema_errors ≠ [])
    (hparse : parseAll (handlerIdxColumns b.schema.unique) b.schema_errors =
      .ok parsed)
    (hcrit : ∃ df ∈ parsed, df.level = .critical) :
    pandera_schema_errors_handler b true st =
      .ok (ErrorCollector.add_error_report st
        { name := b.schema.name
          errors :=
            (parsed.take
              (parsed.findIdx (fun df => df.level == .critical) + 1)).map .dfErr
          total_errors :=
            (parsed.take
              (parsed.findIdx (fun df => df.level == .critical) + 1)).length }) := by
  have hp := processSchemaErrors_critical_prefix
    (handlerIdxColumns b.schema.unique) b.schema_errors parsed hparse hcrit
  simp [pandera_schema_errors_handler, translateHandlerInput, hne, hp]

/-- C3 (witness): a concrete three-violation batch whose second record is
critical yields a two-record report — the third violation is dropped. -/
theorem critical_short_circuit_witness :
    pandera_schema_errors_handler batchInput true AggState.empty =
      .ok (ErrorCollector.add_error_report AggState.empty
        { name := batchInput.schema.name
          errors :=
            (batchParsed.take
              (batchParsed.findIdx (fun df => df.level == .critical) + 1)).map
              .dfErr
          total_errors :=
            (batchParsed.take
              (batchParsed.findIdx (fun df => df.level == .critical) + 1)).length }) :=
  critical_short_circuit batchInput AggState.empty batchParsed (by decide) rfl
    (by decide)

/-- Every non-exception error passed to `add_errors` contributes at least
one record. -/
theorem collectErrors_ne_nil (e : CollectorPaError) : collectErrors e ≠ [] := by
  unfold collectErrors
  split
  · next h => simpa using h
  · simp

/-- The per-batch record count is positive. -/
theorem kOf_pos (e : CollectorPaError) : 0 < kOf e :=
  List.length_pos.mpr (collectErrors_ne_nil e)

/-- One `add_errors` call on a violation batch appends exactly one report
carrying the current counter as id and advances the counter by the batch's
record count. -/
theorem add_errors_pa_eq (st : ErrorCollectorState) (b : CollectorPaError) :
    add_errors_pa st b =
      { errors := st.errors ++
          [{ name := b.schema.name
             errors := collectErrors b
             total_errors := kOf b
             id := st.counter }]
        exceptions := st.exceptions
        counter := st.counter + kOf b } := by
  simp only [add_errors_pa]
  rw [if_pos (List.length_pos.mpr (collectErrors_ne_nil b))]
  rfl

/-- Characterization of a batch sequence: reports are appended in order
with ids threaded from the starting counter, exceptions are untouched, and
the counter ends at the starting value plus the sum of all record counts. -/
theorem runBatches_spec (bs : List CollectorPaError) :
    ∀ st : ErrorCollectorState,
      runBatches st bs =
        { errors := st.errors ++ reportsFrom st.counter bs
          exceptions := st.exceptions
          counter := st.counter + (bs.map kOf).sum } := by
  induction bs with
  | nil =>
    intro st
    simp [runBatches, reportsFrom]
  | cons b bs ih =>
    intro st
    show runBatches (add_errors_pa st b) bs = _
    rw [ih, add_errors_pa_eq]
    simp [reportsFrom, Nat.add_assoc]

/-- A batch sequence appends one report per batch. -/
theorem reportsFrom_length (bs : List CollectorPaError) :
    ∀ c, (reportsFrom c bs).length = bs.length := by
  induction bs with
  | nil => intro c; rfl
  | cons b bs ih => intro c; simp [reportsFrom, ih]

/-- The i-th appended report: its id is the starting counter plus the
record counts of the earlier batches. -/
theorem reportsFrom_getD (bs : List CollectorPaError) :
    ∀ c i, i < bs.length →
      (reportsFrom c bs).getD i default =
        { name := (bs.getD i default).schema.name
          errors := collectErrors (bs.getD i default)
          total_errors := kOf (bs.getD i default)
          id := c + ((bs.take i).map kOf).sum } := by
  induction bs with
  | nil => intro c i hi; simp at hi
  | cons b bs ih =>
    intro c i hi
    cases i with
    | zero => simp [reportsFrom]
    | succ j =>
      have hj : j < bs.length := by simpa using hi
      rw [reportsFrom, List.getD_cons_succ, List.getD_cons_succ,
        ih (c + kOf b) j hj, List.take_succ_cons, List.map_cons, List.sum_cons,
        Nat.add_assoc]

/-- Sum of the per-report `total_errors` over a batch sequence. -/
theorem reportsFrom_total_sum (bs : List CollectorPaError) :
    ∀ c, ((reportsFrom c bs).map (fun r => r.total_errors)).sum =
      (bs.map kOf).sum := by
  induction bs with
  | nil => intro c; rfl
  | cons b bs ih => intro c; simp [reportsFrom, ih]

/-- Sum of the per-report record-list lengths over a batch sequence. -/
theorem reportsFrom_record_sum (bs : List CollectorPaError) :
    ∀ c, ((reportsFrom c bs).map (fun r => r.errors.length)).sum =
      (bs.map kOf).sum := by
  induction bs with
  | nil => intro c; rfl
  | cons b bs ih => intro c; simp [reportsFrom, ih, kOf]

/-- Taking one more batch adds that batch's record count to the sum. -/
theorem take_succ_map_sum (bs : List CollectorPaError) :
    ∀ i, i < bs.length →
      ((bs.take (i + 1)).map kOf).sum =
        ((bs.take i).map kOf).sum + kOf (bs.getD i default) := by
  induction bs with
  | nil => intro i hi; simp at hi
  | cons b bs ih =>
    intro i hi
    cases i with
    | zero => simp
    | succ j =>
      have hj : j < bs.length := by simpa using hi
      rw [List.take_succ_cons, List.take_succ_cons, List.map_cons, List.map_cons,
        List.sum_cons, List.sum_cons, List.getD_cons_succ, ih j hj,
        Nat.add_assoc]

/-- C1: for every sequence of `add_errors` violation batches run on a fresh
collector, each batch contributing `kOf` records: one report is appended
per batch, the i-th appended report is assigned id `Σ_{j<i} k_j` (starting
at 0) and carries `total_errors = k_i`, the counter advances by exactly
`k_i` on the i-th call, and after all calls the counter and the total
violation count across all reports both equal `Σ k_i`. -/
theorem counter_monotonicity (bs : List CollectorPaError) (i : Nat)
    (hi : i < bs.length) :
    (runBatches ErrorCollectorState.empty bs).errors.length = bs.length ∧
    ((runBatches ErrorCollectorState.empty bs).errors.getD i default).id =
      ((bs.take i).map kOf).sum ∧
    ((runBatches ErrorCollectorState.empty bs).errors.getD i default).total_errors =
      kOf (bs.getD i default) ∧
    (runBatches ErrorCollectorState.empty (bs.take (i + 1))).counter =
      (runBatches ErrorCollectorState.empty (bs.take i)).counter +
        kOf (bs.getD i default) ∧
    (runBatches ErrorCollectorState.empty bs).counter = (bs.map kOf).sum ∧
    ((runBatches ErrorCollectorState.empty bs).errors.map
      (fun r => r.errors.length)).sum = (bs.map kOf).sum := by
  refine ⟨?_, ?_, ?_, ?_, ?_, ?_⟩
  · rw [runBatches_spec]
    show ([] ++ reportsFrom 0 bs).length = bs.length
    rw [List.nil_append, reportsFrom_length]
  · rw [runBatches_spec]
    show (([] ++ reportsFrom 0 bs).getD i default).id = _
    rw [List.nil_append, reportsFrom_getD bs 0 i hi]
    exact Nat.zero_add _
  · rw [runBatches_spec]
    show (([] ++ reportsFrom 0 bs).getD i default).total_errors = _
    rw [List.nil_append, reportsFrom_getD bs 0 i hi]
  · rw [runBatches_spec, runBatches_spec]
    show 0 + ((bs.take (i + 1)).map kOf).sum =
      0 + ((bs.take i).map kOf).sum + kOf (bs.getD i default)
    rw [take_succ_map_sum bs i hi, Nat.zero_add, Nat.zero_add]
  · rw [runBatches_spec]
    show 0 + (bs.map kOf).sum = (bs.map kOf).sum
    exact Nat.zero_add _
  · rw [runBatches_spec]
    show (([] ++ reportsFrom 0 bs).map
      (fun r : PehErrorReport => r.errors.length)).sum = _
    rw [List.nil_append, reportsFrom_record_sum]

/-- C1 (witness): a two-record batch followed by a one-record batch on a
fresh collector, instantiated at the second report. -/
theorem counter_monotonicity_witness :
    (runBatches ErrorCollectorState.empty [colBatch1, colBatch2]).errors.length =
      [colBatch1, colBatch2].length ∧
    ((runBatches ErrorCollectorState.empty
        [colBatch1, colBatch2]).errors.getD 1 default).id =
      (([colBatch1, colBatch2].take 1).map kOf).sum ∧
    ((runBatches ErrorCollectorState.empty
        [colBatch1, colBatch2]).errors.getD 1 default).total_errors =
      kOf ([colBatch1, colBatch2].getD 1 default) ∧
    (runBatches ErrorCollectorState.empty
        ([colBatch1, colBatch2].take 2)).counter =
      (runBatches ErrorCollectorState.empty
        ([colBatch1, colBatch2].take 1)).counter +
        kOf ([colBatch1, colBatch2].getD 1 default) ∧
    (runBatches ErrorCollectorState.empty [colBatch1, colBatch2]).counter =
      ([colBatch1, colBatch2].map kOf).sum ∧
    ((runBatches ErrorCollectorState.empty [colBatch1, colBatch2]).errors.map
      (fun r => r.errors.length)).sum = ([colBatch1, colBatch2].map kOf).sum :=
  counter_monotonicity [colBatch1, colBatch2] 1 (by decide)

end DataGuard
